import Mathlib

/-!
Shallow embedding of `röda_dagar.py`, a three-step pipeline that downloads
Swedish public-holiday tables for a list of years, optionally drops rows
falling on weekends, derives `YYYYMMDD` start and end date strings (end =
start + 1 calendar day), and renders the rows as an ICS calendar document
written to the file `röda_dagar.ics`.

Network access (`pd.read_html`) is modelled by an oracle
`fetch : Int → Except String (List HolidayRecord)`; a well-formed remote
table always carries the three columns `Veckodag`, `Datum`, `Namn`.
Pandas date handling is modelled exactly: `pd.to_datetime(..., format =
the ISO day format)` accepts a ten-character `YYYY-MM-DD` string denoting a
real Gregorian calendar date inside the pandas nanosecond-resolution
timestamp range (midnights from 1677-09-22 through 2262-04-11) and raises
otherwise; `astype(str)` on a midnight timestamp yields `YYYY-MM-DD`; the
hyphen-stripping `replace` removes every hyphen.  Errors raised by the
script are modelled with `Except String`.
-/

/-- Record of one row of the scraped holiday table: weekday label,
date string as it appears on the page, and holiday name. -/
structure HolidayRecord where
  veckodag : String
  datum : String
  namn : String
deriving DecidableEq

/-- Model of a pandas data frame as used by the script: the column
labels present, plus the row data.  `pd.DataFrame()` is `⟨[], []⟩`;
accessing a column that is not in `cols` raises a KeyError. -/
structure DF where
  cols : List String
  rows : List HolidayRecord
deriving DecidableEq

/-- Calendar date, modelling a pandas midnight timestamp. -/
structure Date where
  year : Nat
  month : Nat
  day : Nat
deriving DecidableEq

/-- Gregorian leap-year rule, as implemented by pandas timestamps. -/
def isLeap (y : Nat) : Bool :=
  (y % 4 == 0 && y % 100 != 0) || y % 400 == 0

/-- Number of days in a month of the Gregorian calendar. -/
def daysInMonth (y m : Nat) : Nat :=
  if m = 2 then (if isLeap y then 29 else 28)
  else if m = 4 ∨ m = 6 ∨ m = 9 ∨ m = 11 then 30
  else 31

/-- Successor date: the model of adding `pd.Timedelta` of one day to a
midnight timestamp (line 64 of the source). -/
def nextDay (d : Date) : Date :=
  if d.day < daysInMonth d.year d.month then ⟨d.year, d.month, d.day + 1⟩
  else if d.month < 12 then ⟨d.year, d.month + 1, 1⟩
  else ⟨d.year + 1, 1, 1⟩

/-- Decimal digit as a character. -/
def digitChar : Nat → Char
  | 0 => '0'
  | 1 => '1'
  | 2 => '2'
  | 3 => '3'
  | 4 => '4'
  | 5 => '5'
  | 6 => '6'
  | 7 => '7'
  | 8 => '8'
  | _ => '9'

/-- Numeric value of a decimal digit character. -/
def digitVal (c : Char) : Nat := c.toNat - 48

/-- Two-digit zero-padded decimal rendering. -/
def pad2 (n : Nat) : List Char := [digitChar (n / 10 % 10), digitChar (n % 10)]

/-- Four-digit zero-padded decimal rendering. -/
def pad4 (n : Nat) : List Char :=
  [digitChar (n / 1000 % 10), digitChar (n / 100 % 10), digitChar (n / 10 % 10),
   digitChar (n % 10)]

/-- Model of `astype(str)` on a midnight pandas timestamp: the ISO
rendering `YYYY-MM-DD`. -/
def isoFmt (d : Date) : String :=
  String.mk (pad4 d.year ++ '-' :: pad2 d.month ++ '-' :: pad2 d.day)

/-- Model of `.replace` with a hyphen pattern and empty replacement on a
string column (lines 63-66 of the source): delete every hyphen. -/
def stripHyphens (s : String) : String :=
  String.mk (s.data.filter fun c => c != '-')

/-- Value of a two-digit character pair. -/
def val2 (a b : Char) : Nat := digitVal a * 10 + digitVal b

/-- Value of a four-digit character group. -/
def val4 (a b c d : Char) : Nat := (val2 a b * 10 + digitVal c) * 10 + digitVal d

/-- Reading of an eight-character `YYYYMMDD` string back into a date,
used to state the all-day-event invariant. -/
def parseCompact (s : String) : Option Date :=
  match s.data with
  | [a, b, c, d, e, f, g, h] =>
    if a.isDigit && b.isDigit && c.isDigit && d.isDigit && e.isDigit && f.isDigit &&
       g.isDigit && h.isDigit
    then some ⟨val4 a b c d, val2 e f, val2 g h⟩
    else none
  | _ => none

/-- Range check performed by `pd.to_datetime`: the components must form
a real Gregorian date, and the midnight timestamp must fit in the pandas
nanosecond range (1677-09-22 up to 2262-04-11). -/
def validRange (y m dd : Nat) : Bool :=
  decide (1 ≤ m ∧ m ≤ 12 ∧ 1 ≤ dd ∧ dd ≤ daysInMonth y m ∧
    16770922 ≤ y * 10000 + m * 100 + dd ∧ y * 10000 + m * 100 + dd ≤ 22620411)

/-- Model of `pd.to_datetime` on one cell with the strict ISO day format
(line 62 of the source): exactly `YYYY-MM-DD` with two-digit month and
day as served by the source site, denoting a representable real date;
anything else raises. -/
def parseISO (s : String) : Option Date :=
  match s.data with
  | [y1, y2, y3, y4, h1, m1, m2, h2, d1, d2] =>
    if y1.isDigit && y2.isDigit && y3.isDigit && y4.isDigit && h1 == '-' &&
       m1.isDigit && m2.isDigit && h2 == '-' && d1.isDigit && d2.isDigit
    then
      if validRange (val4 y1 y2 y3 y4) (val2 m1 m2) (val2 d1 d2)
      then some ⟨val4 y1 y2 y3 y4, val2 m1 m2, val2 d1 d2⟩
      else none
    else none
  | _ => none

/-- Columns of the table served by the source site. -/
def siteCols : List String := ["Veckodag", "Datum", "Namn"]

/-- Model of `df.append(table)` (line 39): rows are concatenated; the
result carries the appended table's columns once anything was appended. -/
def appendDF (df : DF) (t : List HolidayRecord) : DF :=
  ⟨if df.cols.isEmpty then siteCols else df.cols, df.rows ++ t⟩

/-- Observable actions of the download loop: one HTTP request per year,
and the fixed `time.sleep` pauses. -/
inductive FetchEvent where
  | request (year : Int)
  | sleep (seconds : Nat)
deriving DecidableEq

/-- Event trace of the download loop (lines 36-40): each iteration
issues the year's request and then sleeps five seconds. -/
def downloadEvents (years : List Int) : List FetchEvent :=
  years.foldl (fun acc y => acc ++ [FetchEvent.request y, FetchEvent.sleep 5]) []

/-- Number of sleep pauses in an event trace. -/
def countSleeps (l : List FetchEvent) : Nat :=
  l.countP fun e =>
    match e with
    | FetchEvent.sleep _ => true
    | _ => false

/-- Year of a request event, if the event is a request. -/
def reqYear : FetchEvent → Option Int
  | FetchEvent.request y => some y
  | FetchEvent.sleep _ => none

/-- Accumulation loop of `download_dates` (lines 36-40): starting from a
given frame, fetch each year's table in order and append it; a fetch
failure aborts. -/
def downloadLoop (fetch : Int → Except String (List HolidayRecord)) :
    DF → List Int → Except String DF
  | df, [] => Except.ok df
  | df, y :: ys =>
    match fetch y with
    | Except.error e => Except.error e
    | Except.ok table => downloadLoop fetch (appendDF df table) ys

/-- Model of `RödaDagar.download_dates` (lines 27-42): start from the
empty frame `pd.DataFrame()` and accumulate every year's table. -/
def download_dates (fetch : Int → Except String (List HolidayRecord))
    (years : List Int) : Except String DF :=
  downloadLoop fetch ⟨[], []⟩ years

/-- Weekend filter of lines 59-60: when weekends are excluded, keep
exactly the rows whose weekday label is not in the two-element list. -/
def filterStep (weekends : Bool) (rows : List HolidayRecord) : List HolidayRecord :=
  if weekends then rows
  else rows.filter fun r => !(["Lördag", "Söndag"].contains r.veckodag)

/-- Row of the formatted frame returned by `format_dates`: the original
weekday label and name, the parsed date, and the derived compact start
and end date strings. -/
structure FRow where
  veckodag : String
  datum : Date
  namn : String
  date_start : String
  date_end : String
deriving DecidableEq

/-- Date processing of one surviving row (lines 62-66): parse the date
cell, then derive `date_start` and `date_end` by ISO-rendering the date
and its successor and deleting the hyphens. -/
def parseRow (r : HolidayRecord) : Except String FRow :=
  match parseISO r.datum with
  | some d =>
    Except.ok ⟨r.veckodag, d, r.namn, stripHyphens (isoFmt d),
      stripHyphens (isoFmt (nextDay d))⟩
  | none => Except.error (String.append "ParseError: " r.datum)

/-- Vectorized date conversion over the whole column (line 62): the
first unparseable cell raises and aborts the conversion. -/
def parseRows : List HolidayRecord → Except String (List FRow)
  | [] => Except.ok []
  | r :: rs =>
    match parseRow r with
    | Except.error e => Except.error e
    | Except.ok fr =>
      match parseRows rs with
      | Except.error e => Except.error e
      | Except.ok frs => Except.ok (fr :: frs)

/-- Transformation stage applied to the downloaded frame (lines 57-67):
column accesses on a frame lacking the column raise a KeyError (as for
the frame produced by an empty year list); otherwise the weekend filter
runs first and the date conversion only sees the surviving rows. -/
def transformTable (weekends : Bool) (df : DF) : Except String (List FRow) :=
  if !weekends && !(df.cols.contains "Veckodag") then Except.error "KeyError: Veckodag"
  else if !(df.cols.contains "Datum") then Except.error "KeyError: Datum"
  else parseRows (filterStep weekends df.rows)

/-- Model of `RödaDagar.format_dates` (lines 44-67): download, then
transform. -/
def format_dates (fetch : Int → Except String (List HolidayRecord))
    (years : List Int) (weekends : Bool) : Except String (List FRow) :=
  match download_dates fetch years with
  | Except.error e => Except.error e
  | Except.ok df => transformTable weekends df

/-- Event template of lines 82-86 filled with one row's data. -/
def event_template (start dtend summary : String) : String :=
  "BEGIN:VEVENT\nDTSTART:" ++ start ++ "\nDTEND:" ++ dtend ++ "\nSUMMARY:" ++
    summary ++ "\nEND:VEVENT\n"

/-- Calendar template of lines 77-80 with the joined events inserted. -/
def calendar_template (events : String) : String :=
  "BEGIN:VCALENDAR\nVERSION:2.0\n" ++ events ++ "END:VCALENDAR"

/-- Rendering of lines 93-101: fill the event template per row, join
with no separator, and wrap in the calendar template. -/
def render (rows : List (String × String × String)) : String :=
  calendar_template (String.join (rows.map fun t => event_template t.1 t.2.1 t.2.2))

/-- Fixed output path of line 100. -/
def icsFileName : String := "röda_dagar.ics"

/-- Model of `RödaDagar.create_ics` (lines 69-101): run `format_dates`;
only on success open the output file and perform the single write.  The
result lists the file writes performed as (path, content) pairs. -/
def create_ics (fetch : Int → Except String (List HolidayRecord))
    (years : List Int) (weekends : Bool) : Except String (List (String × String)) :=
  match format_dates fetch years weekends with
  | Except.error e => Except.error e
  | Except.ok rows =>
    Except.ok [(icsFileName, render (rows.map fun fr => (fr.date_start, fr.date_end, fr.namn)))]

/-! Helper lemmas. -/

/-- Joining a nonempty list of strings peels off the head. -/
theorem join_cons (s : String) (l : List String) :
    String.join (s :: l) = s ++ String.join l := by
  rw [String.join_eq, String.join_eq]
  cases s with
  | mk data => rfl

/-- The download loop's event trace is one request-then-sleep pair per year. -/
theorem downloadEvents_eq (years : List Int) :
    downloadEvents years =
      years.flatMap fun y => [FetchEvent.request y, FetchEvent.sleep 5] := by
  have aux : ∀ (ys : List Int) (acc : List FetchEvent),
      ys.foldl (fun acc y => acc ++ [FetchEvent.request y, FetchEvent.sleep 5]) acc =
        acc ++ ys.flatMap fun y => [FetchEvent.request y, FetchEvent.sleep 5] := by
    intro ys
    induction ys with
    | nil => intro acc; simp
    | cons y ys ih => intro acc; simp [ih, List.flatMap_cons]
  simpa using aux years []

/-- With an always-succeeding fetch oracle, the download loop appends the
concatenation of the per-year tables to the starting frame. -/
theorem downloadLoop_pure (f : Int → List HolidayRecord) (years : List Int)
    (df : DF) :
    ∃ cols, downloadLoop (fun y => Except.ok (f y)) df years =
      Except.ok ⟨cols, df.rows ++ (years.map f).flatten⟩ := by
  induction years generalizing df with
  | nil => exact ⟨df.cols, by simp [downloadLoop]⟩
  | cons y ys ih =>
    obtain ⟨cols, h⟩ := ih (appendDF df (f y))
    refine ⟨cols, ?_⟩
    have step : downloadLoop (fun y => Except.ok (f y)) df (y :: ys) =
        downloadLoop (fun y => Except.ok (f y)) (appendDF df (f y)) ys := rfl
    rw [step, h]
    simp [appendDF, List.append_assoc]

/-! Claim theorems. -/

/-- C3: the renderer produces one five-line VEVENT block per input triple,
concatenated in input order with no extra separators, preceded by the
two-line calendar header and followed by `END:VCALENDAR` with no extra
trailing newline. -/
theorem c3_render_shape (rows : List (String × String × String)) :
    render rows =
      "BEGIN:VCALENDAR\nVERSION:2.0\n" ++
        (rows.foldr (fun t acc =>
          "BEGIN:VEVENT\nDTSTART:" ++ t.1 ++ "\nDTEND:" ++ t.2.1 ++ "\nSUMMARY:" ++
            t.2.2 ++ "\nEND:VEVENT\n" ++ acc) "") ++
        "END:VCALENDAR" := by
  unfold render calendar_template
  have core : ∀ rs : List (String × String × String),
      String.join (rs.map fun t => event_template t.1 t.2.1 t.2.2) =
        rs.foldr (fun t acc =>
          "BEGIN:VEVENT\nDTSTART:" ++ t.1 ++ "\nDTEND:" ++ t.2.1 ++ "\nSUMMARY:" ++
            t.2.2 ++ "\nEND:VEVENT\n" ++ acc) "" := by
    intro rs
    induction rs with
    | nil => rfl
    | cons t ts ih =>
      rw [List.map_cons, join_cons, ih, List.foldr_cons]
      simp [event_template, String.append_assoc]
  rw [core]

/-- C5 counterexample: for the empty year list the pipeline does not render
the empty calendar document; the transform stage raises a KeyError on the
column access, so the run aborts. -/
theorem c5_counterexample :
    create_ics (fun _ => Except.ok ([] : List HolidayRecord)) ([] : List Int) true =
      Except.error "KeyError: Datum" := rfl

/-- C5 amended: for the empty year list the fetcher returns the empty
frame with no columns, the transform stage then aborts with a KeyError on
a column access (so no document is rendered and no file written), while
the renderer applied directly to the empty event sequence would produce
exactly the bare calendar wrapper. -/
theorem c5_empty_years (fetch : Int → Except String (List HolidayRecord))
    (wk : Bool) :
    download_dates fetch [] = Except.ok ⟨[], []⟩ ∧
    (∃ c, create_ics fetch [] wk = Except.error (String.append "KeyError: " c)) ∧
    render [] = "BEGIN:VCALENDAR\nVERSION:2.0\nEND:VCALENDAR" := by
  refine ⟨rfl, ?_, rfl⟩
  cases wk with
  | true => exact ⟨"Datum", rfl⟩
  | false => exact ⟨"Veckodag", rfl⟩

/-- C6 counterexample: for the single-year list the trace contains one
sleep, not zero, and that sleep comes after the final (only) request. -/
theorem c6_counterexample :
    countSleeps (downloadEvents [2024]) = 1 ∧
    ¬countSleeps (downloadEvents [2024]) = ([(2024 : Int)].length - 1) ∧
    (downloadEvents [2024]).getLast? = some (FetchEvent.sleep 5) := by
  refine ⟨rfl, by decide, rfl⟩

/-- C6 amended: the download loop pauses five seconds after every year
request, including the final one — exactly n pauses for n requests. -/
theorem c6_pause_after_each_request (years : List Int) :
    downloadEvents years =
      (years.flatMap fun y => [FetchEvent.request y, FetchEvent.sleep 5]) ∧
    countSleeps (downloadEvents years) = years.length := by
  refine ⟨downloadEvents_eq years, ?_⟩
  rw [downloadEvents_eq]
  induction years with
  | nil => rfl
  | cons y ys ih =>
    simp only [List.flatMap_cons, countSleeps, List.countP_append] at ih ⊢
    simp [ih, List.countP_cons]
    omega

/-- C7: the fetcher issues one request per input year in the given order
(duplicates included), and the combined table's rows are the concatenation
of the per-year tables in input-year order with no deduplication. -/
theorem c7_requests_and_concat (f : Int → List HolidayRecord) (years : List Int) :
    (downloadEvents years).filterMap reqYear = years ∧
    ∃ df, download_dates (fun y => Except.ok (f y)) years = Except.ok df ∧
      df.rows = (years.map f).flatten := by
  constructor
  · rw [downloadEvents_eq]
    induction years with
    | nil => rfl
    | cons y ys ih => simp [List.flatMap_cons, List.filterMap_append, reqYear, ih]
  · obtain ⟨cols, h⟩ := downloadLoop_pure f years ⟨[], []⟩
    exact ⟨⟨cols, (years.map f).flatten⟩, by simpa [download_dates] using h, rfl⟩

/-- C8: the renderer is a pure function of its input event sequence, so
rendering the same sequence twice yields byte-identical documents. -/
theorem c8_render_deterministic (rows : List (String × String × String)) :
    render rows = render rows := rfl

/-- C10: the holiday name is inserted into the SUMMARY line verbatim with
no escaping or truncation; a newline-free name yields the five-line block
(five newlines), while a name containing a newline breaks that shape. -/
theorem c10_summary_verbatim :
    (∀ s e n, event_template s e n =
      "BEGIN:VEVENT\nDTSTART:" ++ s ++ "\nDTEND:" ++ e ++ "\nSUMMARY:" ++ n ++
        "\nEND:VEVENT\n") ∧
    (event_template "20240101" "20240102" "Nyårsdagen").data.count '\n' = 5 ∧
    (event_template "20240101" "20240102" "Rad ett\nRad två").data.count '\n' = 6 := by
  refine ⟨fun s e n => rfl, by decide, by decide⟩

/-! Digit and round-trip lemmas for the date strings. -/

/-- Every digit below ten renders to a digit character that is not a
hyphen and reads back to itself. -/
theorem digit_facts : ∀ k, k < 10 →
    digitVal (digitChar k) = k ∧ (digitChar k).isDigit = true ∧
      (digitChar k != '-') = true := by decide

/-- Reading a rendered digit recovers its value. -/
theorem digitVal_digitChar_mod (n : Nat) : digitVal (digitChar (n % 10)) = n % 10 :=
  (digit_facts (n % 10) (Nat.mod_lt n (by omega))).1

/-- Rendered digits are digit characters. -/
theorem digitChar_mod_isDigit (n : Nat) : (digitChar (n % 10)).isDigit = true :=
  (digit_facts (n % 10) (Nat.mod_lt n (by omega))).2.1

/-- Rendered digits are not hyphens. -/
theorem digitChar_mod_ne (n : Nat) : (digitChar (n % 10) != '-') = true :=
  (digit_facts (n % 10) (Nat.mod_lt n (by omega))).2.2

/-- Every Gregorian month has at most thirty-one days. -/
theorem daysInMonth_le_31 (y m : Nat) : daysInMonth y m ≤ 31 := by
  unfold daysInMonth
  split
  · split <;> omega
  · split <;> omega

/-- Rendering a date with four-digit year and two-digit month and day
into the compact `YYYYMMDD` form and reading it back is the identity. -/
theorem parseCompact_roundtrip (y m dd : Nat) (hy : y < 10000) (hm : m < 100)
    (hd : dd < 100) :
    parseCompact (stripHyphens (isoFmt ⟨y, m, dd⟩)) = some ⟨y, m, dd⟩ := by
  have hstr : stripHyphens (isoFmt ⟨y, m, dd⟩) = String.mk (pad4 y ++ pad2 m ++ pad2 dd) := by
    unfold stripHyphens isoFmt
    congr 1
    show (pad4 y ++ '-' :: pad2 m ++ '-' :: pad2 dd).filter (fun c => c != '-') = _
    simp [pad4, pad2, digitChar_mod_ne, List.filter_cons]
  rw [hstr]
  simp only [pad4, pad2, List.cons_append, List.nil_append]
  simp only [parseCompact, digitChar_mod_isDigit, Bool.and_self, Bool.and_true,
    Bool.true_and, if_true, val4, val2, digitVal_digitChar_mod, Option.some.injEq,
    Date.mk.injEq]
  refine ⟨?_, ?_, ?_⟩ <;> omega

/-- Bounds carried by any date accepted by the `pd.to_datetime` model:
a real month and day, and a year inside the pandas timestamp range. -/
theorem parseISO_bounds {s : String} {d : Date} (h : parseISO s = some d) :
    1 ≤ d.month ∧ d.month ≤ 12 ∧ 1 ≤ d.day ∧
      d.day ≤ daysInMonth d.year d.month ∧
      d.year * 10000 + d.month * 100 + d.day ≤ 22620411 := by
  unfold parseISO at h
  split at h
  · split at h
    · split at h
      · rename_i hv
        injection h with h
        subst h
        unfold validRange at hv
        simp only [decide_eq_true_eq] at hv
        obtain ⟨a1, a2, a3, a4, a5, a6⟩ := hv
        exact ⟨a1, a2, a3, a4, a6⟩
      · cases h
    · cases h
  · cases h

/-- Successor of a date inside the accepted range still has a
four-digit year and two-digit month and day. -/
theorem nextDay_small {d : Date} (hy : d.year ≤ 2262) (hm : d.month ≤ 12)
    (hd : d.day ≤ 31) :
    (nextDay d).year < 10000 ∧ (nextDay d).month < 100 ∧ (nextDay d).day < 100 := by
  unfold nextDay
  split
  · exact ⟨show d.year < 10000 by omega, show d.month < 100 by omega,
      show d.day + 1 < 100 by omega⟩
  · split
    · exact ⟨show d.year < 10000 by omega, show d.month + 1 < 100 by omega,
        show (1 : Nat) < 100 by omega⟩
    · exact ⟨show d.year + 1 < 10000 by omega, show (1 : Nat) < 100 by omega,
        show (1 : Nat) < 100 by omega⟩

/-- Shape of a successfully processed row: its date cell parsed to some
date, and the two compact strings render that date and its successor. -/
theorem parseRow_ok_shape {r : HolidayRecord} {fr : FRow}
    (h : parseRow r = Except.ok fr) :
    ∃ d, parseISO r.datum = some d ∧ fr.date_start = stripHyphens (isoFmt d) ∧
      fr.date_end = stripHyphens (isoFmt (nextDay d)) := by
  unfold parseRow at h
  split at h
  · rename_i d heq
    injection h with h
    subst h
    exact ⟨d, heq, rfl, rfl⟩
  · cases h

/-- Every row of a successful column conversion comes from some input
row processed successfully. -/
theorem parseRows_ok_mem : ∀ {l : List HolidayRecord} {rows : List FRow},
    parseRows l = Except.ok rows → ∀ {fr : FRow}, fr ∈ rows →
      ∃ r ∈ l, parseRow r = Except.ok fr := by
  intro l
  induction l with
  | nil =>
    intro rows h fr hfr
    unfold parseRows at h
    injection h with h
    subst h
    cases hfr
  | cons a as ih =>
    intro rows h fr hfr
    unfold parseRows at h
    split at h
    · cases h
    · rename_i fr0 heq0
      split at h
      · cases h
      · rename_i frs heqs
        injection h with h
        subst h
        rcases List.mem_cons.mp hfr with rfl | hmem
        · exact ⟨a, List.mem_cons_self a as, heq0⟩
        · obtain ⟨r, hr, hpr⟩ := ih heqs hmem
          exact ⟨r, List.mem_cons_of_mem a hr, hpr⟩

/-- An unparseable date cell anywhere in the column makes the whole
vectorized conversion raise. -/
theorem parseRows_err_of_mem : ∀ {l : List HolidayRecord} {r : HolidayRecord},
    r ∈ l → parseISO r.datum = none → ∃ e, parseRows l = Except.error e := by
  intro l
  induction l with
  | nil => intro r hr _; cases hr
  | cons a as ih =>
    intro r hr hnone
    rcases List.mem_cons.mp hr with rfl | hmem
    · refine ⟨String.append "ParseError: " r.datum, ?_⟩
      unfold parseRows parseRow
      rw [hnone]
    · rcases hp : parseRow a with e | fr
      · exact ⟨e, by unfold parseRows; rw [hp]⟩
      · obtain ⟨e, he⟩ := ih hmem hnone
        exact ⟨e, by simp [parseRows, hp, he]⟩

/-! Remaining claim theorems. -/

/-- C1: for every row of a successful transform output, the end date
string read back as a `YYYYMMDD` date is exactly the Gregorian successor
of the start date string's date, across month, year and leap-year
boundaries. -/
theorem c1_end_is_start_plus_one_day
    (fetch : Int → Except String (List HolidayRecord)) (years : List Int)
    (weekends : Bool) (rows : List FRow)
    (h : format_dates fetch years weekends = Except.ok rows)
    (fr : FRow) (hfr : fr ∈ rows) :
    ∃ d : Date, parseCompact fr.date_start = some d ∧
      parseCompact fr.date_end = some (nextDay d) := by
  unfold format_dates at h
  split at h
  · cases h
  · rename_i df hdf
    unfold transformTable at h
    split at h
    · cases h
    · split at h
      · cases h
      · obtain ⟨r, _, hpr⟩ := parseRows_ok_mem h hfr
        obtain ⟨d, hiso, hs, he⟩ := parseRow_ok_shape hpr
        obtain ⟨b1, b2, b3, b4, b5⟩ := parseISO_bounds hiso
        have hdm := daysInMonth_le_31 d.year d.month
        obtain ⟨n1, n2, n3⟩ := nextDay_small (by omega) b2 (by omega)
        refine ⟨d, ?_, ?_⟩
        · rw [hs]
          exact parseCompact_roundtrip d.year d.month d.day (by omega) (by omega)
            (by omega)
        · rw [he]
          exact parseCompact_roundtrip (nextDay d).year (nextDay d).month
            (nextDay d).day n1 n2 n3

/-- Fetch oracle for the C1 witness: one leap-year row and one
ordinary-year row, both on February 28. -/
def c1Fetch : Int → Except String (List HolidayRecord) :=
  fun _ => Except.ok [⟨"Onsdag", "2024-02-28", "Skottdagsprov"⟩,
    ⟨"Tisdag", "2023-02-28", "Vanligt prov"⟩]

/-- Formatted row produced for the leap-year witness input. -/
def c1Row1 : FRow := ⟨"Onsdag", ⟨2024, 2, 28⟩, "Skottdagsprov", "20240228", "20240229"⟩

/-- Formatted row produced for the ordinary-year witness input. -/
def c1Row2 : FRow := ⟨"Tisdag", ⟨2023, 2, 28⟩, "Vanligt prov", "20230228", "20230301"⟩

/-- C1 witness: on February 28 the pipeline yields end date 20240229 in
leap year 2024 and 20230301 in ordinary year 2023. -/
theorem c1_witness :
    (∃ d, parseCompact "20240228" = some d ∧ parseCompact "20240229" = some (nextDay d)) ∧
    (∃ d, parseCompact "20230228" = some d ∧ parseCompact "20230301" = some (nextDay d)) := by
  have h : format_dates c1Fetch [2024] true = Except.ok [c1Row1, c1Row2] := by rfl
  exact ⟨c1_end_is_start_plus_one_day c1Fetch [2024] true [c1Row1, c1Row2] h c1Row1
      (List.mem_cons_self _ _),
    c1_end_is_start_plus_one_day c1Fetch [2024] true [c1Row1, c1Row2] h c1Row2
      (List.mem_cons_of_mem _ (List.mem_cons_self _ _))⟩

/-- Characterization of the weekend-filter predicate of line 60. -/
theorem keep_iff (r : HolidayRecord) :
    (!(["Lördag", "Söndag"].contains r.veckodag)) = true ↔
      (r.veckodag ≠ "Lördag" ∧ r.veckodag ≠ "Söndag") := by
  simp [List.contains]

/-- C2: with weekends excluded the filter removes exactly the rows whose
weekday label is the exact string for Saturday or Sunday — the output is
a sublist of the input (order preserved, never longer), contains no
weekend row, and keeps every non-weekend row with its multiplicity; with
weekends included nothing is removed. -/
theorem c2_weekend_filter (rows : List HolidayRecord) :
    filterStep true rows = rows ∧
    (filterStep false rows).Sublist rows ∧
    (filterStep false rows).length ≤ rows.length ∧
    (∀ r ∈ filterStep false rows, r.veckodag ≠ "Lördag" ∧ r.veckodag ≠ "Söndag") ∧
    (∀ r ∈ rows, r.veckodag ≠ "Lördag" → r.veckodag ≠ "Söndag" →
      r ∈ filterStep false rows) ∧
    (∀ r : HolidayRecord, r.veckodag ≠ "Lördag" → r.veckodag ≠ "Söndag" →
      (filterStep false rows).count r = rows.count r) := by
  have hfalse : filterStep false rows =
      rows.filter fun r => !(["Lördag", "Söndag"].contains r.veckodag) := rfl
  refine ⟨rfl, ?_, ?_, ?_, ?_, ?_⟩
  · rw [hfalse]; exact List.filter_sublist rows
  · rw [hfalse]; exact List.length_filter_le _ rows
  · intro r hr
    rw [hfalse] at hr
    exact (keep_iff r).mp (List.mem_filter.mp hr).2
  · intro r hr h1 h2
    rw [hfalse]
    exact List.mem_filter.mpr ⟨hr, (keep_iff r).mpr ⟨h1, h2⟩⟩
  · intro r h1 h2
    rw [hfalse]
    exact List.count_filter ((keep_iff r).mpr ⟨h1, h2⟩)

/-- C2 witness: in the two-row table of the spec scenario, the Monday
row survives the weekend filter. -/
theorem c2_witness :
    (⟨"Måndag", "2024-01-01", "Nyårsdagen"⟩ : HolidayRecord) ∈
      filterStep false [⟨"Måndag", "2024-01-01", "Nyårsdagen"⟩,
        ⟨"Lördag", "2024-01-06", "Trettondedag jul"⟩] :=
  (c2_weekend_filter [⟨"Måndag", "2024-01-01", "Nyårsdagen"⟩,
      ⟨"Lördag", "2024-01-06", "Trettondedag jul"⟩]).2.2.2.2.1
    ⟨"Måndag", "2024-01-01", "Nyårsdagen"⟩ (List.mem_cons_self _ _)
    (by decide) (by decide)

/-- C4 counterexample: a record whose date string fails to parse does
not always abort the run — a weekend record with an unparseable date is
dropped by the filter when weekends are excluded, the run completes, and
the output file is written. -/
theorem c4_counterexample :
    parseISO "not-a-date" = none ∧
    create_ics (fun _ => Except.ok [⟨"Lördag", "not-a-date", "Julafton"⟩]) [2024] false =
      Except.ok [("röda_dagar.ics", "BEGIN:VCALENDAR\nVERSION:2.0\nEND:VCALENDAR")] :=
  ⟨rfl, rfl⟩

/-- C4 amended: if any record surviving the weekend filter has a date
string that fails to parse, the run aborts with an error and performs no
file write; when the transform succeeds, exactly one write of the final
document happens, at the very end. -/
theorem c4_abort_before_write :
    (∀ (fetch : Int → Except String (List HolidayRecord)) (years : List Int)
        (weekends : Bool) (df : DF) (r : HolidayRecord),
      download_dates fetch years = Except.ok df →
      r ∈ filterStep weekends df.rows →
      parseISO r.datum = none →
      ∃ e, create_ics fetch years weekends = Except.error e) ∧
    (∀ (fetch : Int → Except String (List HolidayRecord)) (years : List Int)
        (weekends : Bool) (rows : List FRow),
      format_dates fetch years weekends = Except.ok rows →
      create_ics fetch years weekends =
        Except.ok [(icsFileName,
          render (rows.map fun fr => (fr.date_start, fr.date_end, fr.namn)))]) := by
  constructor
  · intro fetch years weekends df r hdf hr hnone
    have htr : ∃ e, transformTable weekends df = Except.error e := by
      unfold transformTable
      split
      · exact ⟨_, rfl⟩
      · split
        · exact ⟨_, rfl⟩
        · exact parseRows_err_of_mem hr hnone
    obtain ⟨e, he⟩ := htr
    refine ⟨e, ?_⟩
    unfold create_ics format_dates
    simp only [hdf, he]
  · intro fetch years weekends rows h
    unfold create_ics
    rw [h]

/-- C4 witness: a surviving (non-weekend) record with the unparseable
date string makes the run abort with an error, so no file is written. -/
theorem c4_witness :
    ∃ e, create_ics (fun _ => Except.ok [⟨"Måndag", "not-a-date", "Nyårsdagen"⟩])
      [2024] false = Except.error e :=
  c4_abort_before_write.1 (fun _ => Except.ok [⟨"Måndag", "not-a-date", "Nyårsdagen"⟩])
    [2024] false ⟨siteCols, [⟨"Måndag", "not-a-date", "Nyårsdagen"⟩]⟩
    ⟨"Måndag", "not-a-date", "Nyårsdagen"⟩ rfl (by decide) rfl

/-- C9: with weekends excluded, a Saturday or Sunday record is removed
before the date conversion runs — the transform result does not depend
on that record's date string at all, so an unparseable date on such a
record cannot abort the run. -/
theorem c9_weekend_removed_before_parse
    (cols : List String) (pre post : List HolidayRecord)
    (v dtm nm : String) (hv : v = "Lördag" ∨ v = "Söndag") :
    transformTable false ⟨cols, pre ++ ⟨v, dtm, nm⟩ :: post⟩ =
      transformTable false ⟨cols, pre ++ post⟩ := by
  have hp : (!(["Lördag", "Söndag"].contains (⟨v, dtm, nm⟩ : HolidayRecord).veckodag)) =
      false := by
    rcases hv with rfl | rfl <;> rfl
  have hfs : filterStep false (pre ++ ⟨v, dtm, nm⟩ :: post) =
      filterStep false (pre ++ post) := by
    show (pre ++ ⟨v, dtm, nm⟩ :: post).filter _ = (pre ++ post).filter _
    simp only [List.filter_append, List.filter_cons, hp]
    simp
  unfold transformTable
  dsimp only
  rw [hfs]

/-- C9 witness: a Saturday record carrying the unparseable date string
is dropped without aborting, and the run result equals the run without
that record, which succeeds. -/
theorem c9_witness :
    transformTable false ⟨siteCols, [⟨"Lördag", "not-a-date", "Trettondedag jul"⟩]⟩ =
      transformTable false ⟨siteCols, []⟩ ∧
    transformTable false ⟨siteCols, ([] : List HolidayRecord)⟩ = Except.ok [] :=
  ⟨c9_weekend_removed_before_parse siteCols [] [] "Lördag" "not-a-date"
      "Trettondedag jul" (Or.inl rfl), rfl⟩
